import Mathlib

/-!
# Verification of the life-expectancy scoring engine (`src/app.py`)

A shallow embedding of the pure scoring path of the repository:
the helpers `clamp`, `safe_int`, `safe_float`, `normalize_bool`
(app.py lines 93-135) and the function `predict_life_expectancy`
(app.py lines 137-208).

Modelling decisions:
* Python floats are embedded as `ℚ`.  Through the clamp of line 199 every
  value is an integer multiple of 1/2 with magnitude below a few hundred,
  where binary64 arithmetic is exact, so the rational embedding is faithful
  there.  The one reachable operation that can round in binary64 is the
  product `years_left * 365` of line 202: `years_left` can be astronomically
  large when the age field is hugely negative.  That product is therefore
  modelled twice: exactly (in `predict_life_expectancy`) and with the
  IEEE-754 round-to-nearest-ties-even step made explicit (`fl64pos`, used
  by `days_left_fl`).
* A raw form field is a `RawNum`: either absent (`None` in the dict),
  present but not parsable by Python `float`, or parsing to a finite
  rational value.  A string parsing to a non-finite float (`"nan"`, `"inf"`)
  is only ever used in comparison guards in the source, where it takes the
  same branch as some large finite value (all band tests false, falling to
  the last `else`), so `RawNum.num` with a finite value covers the reachable
  behaviours.
* `int()` applied to a finite float truncates toward zero (`truncInt`).
* Python's `round(x, 1)` is embedded as `round1`; its tie-breaking
  (round-half-to-even in Python) agrees with every other convention on the
  values this program rounds, which all have `x * 10` an integer.
* The sequential `score += c` / `score -= c` updates of lines 152-197 are
  embedded per block: each conditional block adds a field-determined
  constant to the running total, given by one `*_adj` function per block,
  and `score_raw` chains them in the source's order.
-/

/-- `clamp` from app.py line 93-94: `max(lo, min(hi, v))`. -/
def clamp {α : Type} [LinearOrder α] (v lo hi : α) : α :=
  max lo (min hi v)

/-- A raw value read from the request-form dict: the key may be missing
(`None`), present but unparsable by `float`, or parse to a finite value. -/
inductive RawNum where
  | absent : RawNum
  | unparsable : RawNum
  | num : ℚ → RawNum
deriving DecidableEq, Repr

/-- Does the raw value parse as a (finite) float? -/
def RawNum.isNum : RawNum → Bool
  | .num _ => true
  | _ => false

/-- Python `float(v)`: succeeds exactly on parsable values, raises otherwise. -/
def pyFloat : RawNum → Except Unit ℚ
  | .num q => .ok q
  | _ => .error ()

/-- Python `int(q)` on a finite float: truncation toward zero. -/
def truncInt (q : ℚ) : ℤ :=
  if 0 ≤ q then ⌊q⌋ else ⌈q⌉

/-- `safe_int` from app.py lines 125-129: `int(float(v))` with a fallback
default when the conversion raises. -/
def safe_int (v : RawNum) (default : ℤ) : ℤ :=
  match pyFloat v with
  | .ok q => truncInt q
  | .error _ => default

/-- `safe_float` from app.py lines 131-135: `float(v)` with a fallback
default when the conversion raises. -/
def safe_float (v : RawNum) (default : ℚ) : ℚ :=
  match pyFloat v with
  | .ok q => q
  | .error _ => default

/-- Python `str(v)` for an optional form string: `None` prints as `"None"`. -/
def pyStr : Option String → String
  | none => "None"
  | some s => s

/-- Python `str.lower()`, character by character. -/
def pyLower (s : String) : String :=
  ⟨s.data.map Char.toLower⟩

/-- `normalize_bool` from app.py lines 122-123:
`str(v).lower() in ('1', 'true', 'on', 'yes')`. -/
def normalize_bool (v : Option String) : Bool :=
  ["1", "true", "on", "yes"].contains (pyLower (pyStr v))

/-- `BASE_LIFE_EXPECTANCY = 78` from app.py line 42. -/
def BASE_LIFE_EXPECTANCY : ℤ := 78

/-- Lines 154-157: sex category adjustment (`female` +3, `male` +1, else 0). -/
def sex_adj (sex : String) : ℚ :=
  if sex = "female" then 3 else if sex = "male" then 1 else 0

/-- Lines 159-163: BMI band adjustment, gated by Python truthiness
(`if bmi:`, i.e. skipped when `bmi == 0`). -/
def bmi_adj (bmi : ℚ) : ℚ :=
  if bmi ≠ 0 then
    if bmi < 18.5 then -2
    else if 18.5 ≤ bmi ∧ bmi < 25 then 2
    else if 25 ≤ bmi ∧ bmi < 30 then -1
    else -3
  else 0

/-- Lines 165-170: systolic blood-pressure band adjustment, gated by Python
truthiness (`if systolic_bp:`, i.e. skipped when `systolic_bp == 0`). -/
def bp_adj (bp : ℤ) : ℚ :=
  if bp ≠ 0 then
    if bp < 120 then 1
    else if 120 ≤ bp ∧ bp ≤ 129 then 0
    else if 130 ≤ bp ∧ bp ≤ 139 then -1
    else if 140 ≤ bp ∧ bp ≤ 159 then -3
    else -5
  else 0

/-- Line 172: `if diabetic: score -= 5`. -/
def diabetic_adj (diabetic : Bool) : ℚ :=
  if diabetic then -5 else 0

/-- Line 173: `if smoker: score -= 7`. -/
def smoker_adj (smoker : Bool) : ℚ :=
  if smoker then -7 else 0

/-- Lines 175-177: sleep-hours adjustment, gated by Python truthiness
(`if sleep:`, i.e. skipped when `sleep == 0`). -/
def sleep_adj (sleep : ℚ) : ℚ :=
  if sleep ≠ 0 then
    if 6.5 ≤ sleep ∧ sleep ≤ 8.5 then 2 else -2
  else 0

/-- Lines 179-181: weekly-exercise-minutes adjustment. -/
def exercise_adj (exercise : ℤ) : ℚ :=
  if exercise ≥ 150 then 3
  else if exercise ≥ 60 then 1
  else -1

/-- Lines 183-186: alcohol-units-per-week adjustment. -/
def alcohol_adj (alcohol : ℤ) : ℚ :=
  if alcohol = 0 then 1
  else if 1 ≤ alcohol ∧ alcohol ≤ 7 then 0
  else if 8 ≤ alcohol ∧ alcohol ≤ 14 then -1
  else -3

/-- Lines 188-190: fruit/vegetable-servings adjustment. -/
def fv_adj (fv : ℤ) : ℚ :=
  if fv ≥ 5 then 2
  else if fv ≥ 3 then 1
  else -1

/-- Line 192: `score -= clamp(stress - 4, -3, 6) * 0.5`, as the amount added
to the running total. -/
def stress_adj (stress : ℤ) : ℚ :=
  -((clamp (stress - 4) (-3) 6 : ℤ) : ℚ) * 0.5

/-- Lines 194-197: cholesterol band adjustment. -/
def chol_adj (chol : ℤ) : ℚ :=
  if chol < 180 then 1
  else if 180 ≤ chol ∧ chol ≤ 199 then 0
  else if 200 ≤ chol ∧ chol ≤ 239 then -1
  else -2

/-- One submitted form record, field by field, as `predict_life_expectancy`
reads it from the `inputs` dict (app.py lines 139-150).  String-valued
fields (`sex` and the two booleans) are `Option String` (`none` = key
missing, so `dict.get` returns `None`); numeric fields are `RawNum`. -/
structure Inputs where
  age : RawNum
  sex : Option String
  bmi : RawNum
  diabetic : Option String
  systolic_bp : RawNum
  smoker : Option String
  daily_sleep_hours : RawNum
  weekly_exercise_minutes : RawNum
  alcohol_units_per_week : RawNum
  fruits_veg_servings_per_day : RawNum
  stress_level : RawNum
  cholesterol : RawNum
deriving DecidableEq, Repr

/-- The running total of app.py lines 139-197 just before the clamp of
line 199: the base constant plus the net contribution of each conditional
block, applied to the coerced fields exactly as lines 139-150 coerce them
(`inputs.get('sex', 'other')` defaults to `"other"`; `stress_level` falls
back to 5 and is clamped to `[1, 10]`; `cholesterol` falls back to 180;
the remaining numeric fields fall back to 0). -/
def score_raw (i : Inputs) : ℚ :=
  let sex := i.sex.getD "other"
  let bmi := safe_float i.bmi 0
  let diabetic := normalize_bool i.diabetic
  let systolic_bp := safe_int i.systolic_bp 0
  let smoker := normalize_bool i.smoker
  let sleep := safe_float i.daily_sleep_hours 0
  let exercise := safe_int i.weekly_exercise_minutes 0
  let alcohol := safe_int i.alcohol_units_per_week 0
  let fv := safe_int i.fruits_veg_servings_per_day 0
  let stress := clamp (safe_int i.stress_level 5) 1 10
  let chol := safe_int i.cholesterol 180
  let score : ℚ := (BASE_LIFE_EXPECTANCY : ℚ)
  let score := score + sex_adj sex
  let score := score + bmi_adj bmi
  let score := score + bp_adj systolic_bp
  let score := score + diabetic_adj diabetic
  let score := score + smoker_adj smoker
  let score := score + sleep_adj sleep
  let score := score + exercise_adj exercise
  let score := score + alcohol_adj alcohol
  let score := score + fv_adj fv
  let score := score + stress_adj stress
  let score := score + chol_adj chol
  score

/-- Line 199: `score = clamp(score, 50, 100)`; line 200 names the result
`predicted_le`. -/
def clamped_score (i : Inputs) : ℚ :=
  clamp (score_raw i) 50 100

/-- Line 201: `years_left = max(0.0, predicted_le - age)` (pre-rounding). -/
def years_left_pre (i : Inputs) : ℚ :=
  max 0 (clamped_score i - (safe_int i.age 0 : ℚ))

/-- Python's `round(x, 1)`.  On every value this program rounds, `x * 10`
is an integer, where all tie-breaking conventions (including Python's
round-half-to-even) coincide. -/
def round1 (q : ℚ) : ℚ :=
  ((round (q * 10) : ℤ) : ℚ) / 10

/-- The dict returned at app.py lines 204-208. -/
structure PredictionResult where
  predicted_life_expectancy : ℚ
  years_left : ℚ
  days_left : ℤ
deriving DecidableEq, Repr

/-- `predict_life_expectancy` from app.py lines 137-208: coerce the raw
fields, apply the rule table to the base constant, clamp to `[50, 100]`,
derive years and days left, and round the two real outputs to one decimal
(`days_left = int(years_left * 365)` at line 202 truncates).  The product
`years_left * 365` is taken exactly here; that matches the binary64 product
of the source only while it stays below `2 ^ 52` — `days_left_fl` below
models the rounded product and is what the days-left claim is settled
against. -/
def predict_life_expectancy (i : Inputs) : PredictionResult :=
  { predicted_life_expectancy := round1 (clamped_score i)
    years_left := round1 (years_left_pre i)
    days_left := truncInt (years_left_pre i * 365) }

/-- A record with every form key missing: all coercions take their
fallback branch. -/
def emptyInputs : Inputs :=
  { age := .absent
    sex := none
    bmi := .absent
    diabetic := none
    systolic_bp := .absent
    smoker := none
    daily_sleep_hours := .absent
    weekly_exercise_minutes := .absent
    alcohol_units_per_week := .absent
    fruits_veg_servings_per_day := .absent
    stress_level := .absent
    cholesterol := .absent }

/-- The concrete scenario of §8 of the spec: age 30, female, bmi 22,
not diabetic, bp 118, non-smoker, sleep 7.5 h, exercise 180 min,
alcohol 0, fruit/veg 5, stress 3, cholesterol 170. -/
def c1Inputs : Inputs :=
  { age := .num 30
    sex := some "female"
    bmi := .num 22
    diabetic := some "false"
    systolic_bp := .num 118
    smoker := some "false"
    daily_sleep_hours := .num 7.5
    weekly_exercise_minutes := .num 180
    alcohol_units_per_week := .num 0
    fruits_veg_servings_per_day := .num 5
    stress_level := .num 3
    cholesterol := .num 170 }

/-- Round to the nearest integer, ties to the even neighbour — the IEEE-754
tie-breaking rule binary64 arithmetic uses. -/
def roundTiesEven (q : ℚ) : ℤ :=
  if q - ⌊q⌋ < 1 / 2 then ⌊q⌋
  else if 1 / 2 < q - ⌊q⌋ then ⌈q⌉
  else if ⌊q⌋ % 2 = 0 then ⌊q⌋ else ⌊q⌋ + 1

/-- IEEE-754 binary64 rounding of a non-negative rational in the normal
range (no overflow, no subnormals — which covers every value this
development applies it to): round to the nearest multiple of
`2 ^ (E - 52)`, ties to even, where `E = ⌊log₂ q⌋`. -/
def fl64pos (q : ℚ) : ℚ :=
  roundTiesEven (q / 2 ^ (Int.log 2 q - 52)) * 2 ^ (Int.log 2 q - 52)

/-- app.py line 202 with the binary64 multiplication made explicit:
CPython evaluates `years_left * 365` in float64, rounding the exact product
to nearest-ties-even before `int()` truncates it.  The inputs to the
product are modelled exactly: `age` is always exactly representable (it is
`int()` of a float), and the subtraction `predicted_le - age` of line 201
is exact whenever its exact value is representable — in particular for
`|age| ≤ 2 ^ 43` (the difference is a half-integer below `2 ^ 44`) and at
`age = -2 ^ 53` (the difference `2 ^ 53 + 50` sits on the spacing-2 grid). -/
def days_left_fl (i : Inputs) : ℤ :=
  truncInt (fl64pos (years_left_pre i * 365))

/-- A worst-case profile (pre-clamp score 46, clamped to 50) whose age
field holds `-2 ^ 53` — the string `"-9007199254740992"` parses to exactly
that float.  At this input the binary64 product `years_left * 365`
rounds upward by 182. -/
def c4Inputs : Inputs :=
  { age := .num (-9007199254740992)
    sex := none
    bmi := .num 35
    diabetic := some "true"
    systolic_bp := .num 170
    smoker := some "true"
    daily_sleep_hours := .num 4
    weekly_exercise_minutes := .num 0
    alcohol_units_per_week := .num 20
    fruits_veg_servings_per_day := .num 0
    stress_level := .num 10
    cholesterol := .num 300 }

/-! ## Helper lemmas

Every value the scoring pipeline produces is an integer multiple of 1/2:
the base and all band adjustments are integers, and the stress term is an
integer times 1/2.  On such values Python's `round(x, 1)` is the identity,
which is what lets us push facts about the pre-rounding quantities through
to the returned record. -/

/-- `q` is an integer multiple of 1/2. -/
def halfInt (q : ℚ) : Prop := ∃ k : ℤ, q = (k : ℚ) / 2

lemma halfInt_intCast (n : ℤ) : halfInt (n : ℚ) :=
  ⟨2 * n, by push_cast; ring⟩

lemma halfInt_add {a b : ℚ} (ha : halfInt a) (hb : halfInt b) : halfInt (a + b) := by
  obtain ⟨k, rfl⟩ := ha
  obtain ⟨m, rfl⟩ := hb
  exact ⟨k + m, by push_cast; ring⟩

lemma halfInt_sub {a b : ℚ} (ha : halfInt a) (hb : halfInt b) : halfInt (a - b) := by
  obtain ⟨k, rfl⟩ := ha
  obtain ⟨m, rfl⟩ := hb
  exact ⟨k - m, by push_cast; ring⟩

lemma halfInt_max {a b : ℚ} (ha : halfInt a) (hb : halfInt b) : halfInt (max a b) := by
  rcases le_total a b with h | h
  · rwa [max_eq_right h]
  · rwa [max_eq_left h]

lemma halfInt_min {a b : ℚ} (ha : halfInt a) (hb : halfInt b) : halfInt (min a b) := by
  rcases le_total a b with h | h
  · rwa [min_eq_left h]
  · rwa [min_eq_right h]

lemma round1_halfInt {q : ℚ} (h : halfInt q) : round1 q = q := by
  obtain ⟨k, rfl⟩ := h
  have h10 : (k : ℚ) / 2 * 10 = ((5 * k : ℤ) : ℚ) := by push_cast; ring
  rw [round1, h10, round_intCast]
  push_cast
  ring

lemma sex_adj_halfInt (s : String) : halfInt (sex_adj s) := by
  unfold sex_adj
  split_ifs
  exacts [⟨6, by norm_num⟩, ⟨2, by norm_num⟩, ⟨0, by norm_num⟩]

lemma bmi_adj_halfInt (b : ℚ) : halfInt (bmi_adj b) := by
  unfold bmi_adj
  split_ifs
  exacts [⟨-4, by norm_num⟩, ⟨4, by norm_num⟩, ⟨-2, by norm_num⟩, ⟨-6, by norm_num⟩,
    ⟨0, by norm_num⟩]

lemma bp_adj_halfInt (bp : ℤ) : halfInt (bp_adj bp) := by
  unfold bp_adj
  split_ifs
  exacts [⟨2, by norm_num⟩, ⟨0, by norm_num⟩, ⟨-2, by norm_num⟩, ⟨-6, by norm_num⟩,
    ⟨-10, by norm_num⟩, ⟨0, by norm_num⟩]

lemma diabetic_adj_halfInt (d : Bool) : halfInt (diabetic_adj d) := by
  unfold diabetic_adj
  split_ifs
  exacts [⟨-10, by norm_num⟩, ⟨0, by norm_num⟩]

lemma smoker_adj_halfInt (s : Bool) : halfInt (smoker_adj s) := by
  unfold smoker_adj
  split_ifs
  exacts [⟨-14, by norm_num⟩, ⟨0, by norm_num⟩]

lemma sleep_adj_halfInt (s : ℚ) : halfInt (sleep_adj s) := by
  unfold sleep_adj
  split_ifs
  exacts [⟨4, by norm_num⟩, ⟨-4, by norm_num⟩, ⟨0, by norm_num⟩]

lemma exercise_adj_halfInt (e : ℤ) : halfInt (exercise_adj e) := by
  unfold exercise_adj
  split_ifs
  exacts [⟨6, by norm_num⟩, ⟨2, by norm_num⟩, ⟨-2, by norm_num⟩]

lemma alcohol_adj_halfInt (a : ℤ) : halfInt (alcohol_adj a) := by
  unfold alcohol_adj
  split_ifs
  exacts [⟨2, by norm_num⟩, ⟨0, by norm_num⟩, ⟨-2, by norm_num⟩, ⟨-6, by norm_num⟩]

lemma fv_adj_halfInt (f : ℤ) : halfInt (fv_adj f) := by
  unfold fv_adj
  split_ifs
  exacts [⟨4, by norm_num⟩, ⟨2, by norm_num⟩, ⟨-2, by norm_num⟩]

lemma stress_adj_halfInt (st : ℤ) : halfInt (stress_adj st) := by
  refine ⟨-(clamp (st - 4) (-3) 6), ?_⟩
  unfold stress_adj
  push_cast
  ring_nf

lemma chol_adj_halfInt (c : ℤ) : halfInt (chol_adj c) := by
  unfold chol_adj
  split_ifs
  exacts [⟨2, by norm_num⟩, ⟨0, by norm_num⟩, ⟨-2, by norm_num⟩, ⟨-4, by norm_num⟩]

lemma score_raw_halfInt (i : Inputs) : halfInt (score_raw i) := by
  simp only [score_raw]
  exact halfInt_add (halfInt_add (halfInt_add (halfInt_add (halfInt_add (halfInt_add
    (halfInt_add (halfInt_add (halfInt_add (halfInt_add (halfInt_add
      (halfInt_intCast _) (sex_adj_halfInt _)) (bmi_adj_halfInt _)) (bp_adj_halfInt _))
      (diabetic_adj_halfInt _)) (smoker_adj_halfInt _)) (sleep_adj_halfInt _))
      (exercise_adj_halfInt _)) (alcohol_adj_halfInt _)) (fv_adj_halfInt _))
      (stress_adj_halfInt _)) (chol_adj_halfInt _)

lemma clamped_score_halfInt (i : Inputs) : halfInt (clamped_score i) := by
  simp only [clamped_score, clamp]
  exact halfInt_max ⟨100, by norm_num⟩ (halfInt_min ⟨200, by norm_num⟩ (score_raw_halfInt i))

lemma years_left_pre_halfInt (i : Inputs) : halfInt (years_left_pre i) := by
  simp only [years_left_pre]
  exact halfInt_max ⟨0, by norm_num⟩
    (halfInt_sub (clamped_score_halfInt i) (halfInt_intCast _))

lemma le_clamped_score (i : Inputs) : 50 ≤ clamped_score i :=
  le_max_left _ _

lemma clamped_score_le (i : Inputs) : clamped_score i ≤ 100 :=
  max_le (by norm_num) (min_le_left _ _)

lemma years_left_pre_nonneg (i : Inputs) : 0 ≤ years_left_pre i :=
  le_max_left _ _

lemma exercise_adj_mono {e₁ e₂ : ℤ} (h : e₁ ≤ e₂) : exercise_adj e₁ ≤ exercise_adj e₂ := by
  unfold exercise_adj
  split_ifs <;> norm_num <;> omega

lemma safe_int_num (e : ℤ) (d : ℤ) : safe_int (.num (e : ℚ)) d = e := by
  simp only [safe_int, pyFloat, truncInt]
  split_ifs <;> simp

lemma roundTiesEven_intCast (n : ℤ) : roundTiesEven (n : ℚ) = n := by
  simp only [roundTiesEven, Int.floor_intCast, sub_self]
  norm_num

lemma fl64pos_zero : fl64pos 0 = 0 := by
  simp only [fl64pos, zero_div]
  rw [show ((0 : ℚ)) = ((0 : ℤ) : ℚ) by norm_num, roundTiesEven_intCast]
  norm_num

/-- Binary64 rounding is the identity on half-integers below `2 ^ 52`:
there the rounding grid `2 ^ (E - 52)` is at least as fine as `1 / 2`. -/
lemma fl64pos_eq_self {q : ℚ} (h0 : 0 < q) (hlt : q < 2 ^ 52) (hh : halfInt q) :
    fl64pos q = q := by
  obtain ⟨k, rfl⟩ := hh
  set E := Int.log 2 ((k : ℚ) / 2) with hEdef
  have hE52 : E < 52 := by
    rw [hEdef, ← Int.lt_zpow_iff_log_lt (by norm_num) h0]
    push_cast
    rw [show ((52 : ℤ)) = ((52 : ℕ) : ℤ) by norm_num, zpow_natCast]
    exact_mod_cast hlt
  have hnn : (0 : ℤ) ≤ 51 - E := by omega
  have ht : ((51 - E).toNat : ℤ) = 51 - E := Int.toNat_of_nonneg hnn
  have h2 : ((2 : ℚ)) ^ (E - 52) ≠ 0 := zpow_ne_zero _ (by norm_num)
  have key : ((k : ℚ) / 2) / (2 : ℚ) ^ (E - 52) = ((k * 2 ^ (51 - E).toNat : ℤ) : ℚ) := by
    rw [div_eq_iff h2]
    push_cast
    rw [← zpow_natCast (2 : ℚ) (51 - E).toNat, ht, mul_assoc,
      ← zpow_add₀ (by norm_num : (2 : ℚ) ≠ 0)]
    rw [show (51 - E) + (E - 52) = (-1 : ℤ) by ring]
    rw [zpow_neg, zpow_one]
    ring
  have hbody : fl64pos ((k : ℚ) / 2) =
      ((k * 2 ^ (51 - E).toNat : ℤ) : ℚ) * (2 : ℚ) ^ (E - 52) := by
    rw [fl64pos, ← hEdef, key, roundTiesEven_intCast]
  rw [hbody, ← key, div_mul_cancel₀ _ h2]

/-! ## Claim theorems -/

/-- C1: for the concrete input age=30, sex=female, bmi=22, diabetic=false,
systolic_bp=118, smoker=false, daily_sleep_hours=7.5,
weekly_exercise_minutes=180, alcohol_units_per_week=0,
fruits_veg_servings_per_day=5, stress_level=3, cholesterol=170, the scoring
function returns predicted_life_expectancy = 93.5, years_left = 63.5 and
days_left = 23177. -/
theorem scoring_concrete_scenario :
    predict_life_expectancy c1Inputs =
      { predicted_life_expectancy := 93.5, years_left := 63.5, days_left := 23177 } := by
  have hnb : normalize_bool (some "false") = false := by decide
  have hs : score_raw c1Inputs = 93.5 := by
    simp only [score_raw, c1Inputs, safe_int, safe_float, pyFloat, hnb, Option.getD]
    norm_num [sex_adj, bmi_adj, bp_adj, diabetic_adj, smoker_adj, sleep_adj,
      exercise_adj, alcohol_adj, fv_adj, stress_adj, chol_adj, clamp, truncInt,
      BASE_LIFE_EXPECTANCY, max_def, min_def]
  have hcl : clamped_score c1Inputs = 93.5 := by
    rw [clamped_score, hs]
    norm_num [clamp, max_def, min_def]
  have hage : safe_int c1Inputs.age 0 = 30 := by
    simp only [c1Inputs, safe_int, pyFloat]
    norm_num [truncInt]
  have hy : years_left_pre c1Inputs = 63.5 := by
    rw [years_left_pre, hcl, hage]
    norm_num [max_def]
  rw [predict_life_expectancy, hcl, hy]
  norm_num [round1, truncInt]

/-- C2: for every input record (all fields arbitrary, possibly absent or
unparsable), the predicted_life_expectancy returned by the scoring function
lies within the inclusive clamp band [50, 100]. -/
theorem predicted_le_within_clamp_band (i : Inputs) :
    50 ≤ (predict_life_expectancy i).predicted_life_expectancy ∧
      (predict_life_expectancy i).predicted_life_expectancy ≤ 100 := by
  have hid : round1 (clamped_score i) = clamped_score i :=
    round1_halfInt (clamped_score_halfInt i)
  simp only [predict_life_expectancy, hid]
  exact ⟨le_clamped_score i, clamped_score_le i⟩

/-- C3 counterexample: at systolic_bp = 0 (a non-negative integer < 120)
the blood-pressure block contributes 0, not the +1 the claim requires,
because the block is gated by Python truthiness (`if systolic_bp:`). -/
theorem bp_zero_adds_nothing : bp_adj 0 = 0 ∧ bp_adj 0 ≠ 1 := by
  norm_num [bp_adj]

/-- C3 amended: for every systolic blood-pressure value that is a *positive*
integer strictly below 120, the blood-pressure rule adds +1 to the running
total; the value 0 is excluded because the block is skipped on falsy values. -/
theorem bp_low_band_adds_one (bp : ℤ) (h1 : 1 ≤ bp) (h2 : bp < 120) :
    bp_adj bp = 1 := by
  have hne : bp ≠ 0 := by omega
  simp [bp_adj, hne, h2]

/-- Witness for C3 amended: blood pressure 118 gets the +1 adjustment. -/
theorem bp_low_band_adds_one_witness : bp_adj 118 = 1 :=
  bp_low_band_adds_one 118 (by norm_num) (by norm_num)

/-- C4 counterexample: with the binary64 multiplication of line 202
modelled faithfully, the record whose age parses to `-2 ^ 53` returns
days_left 3287627727980480512 while floor(years_left * 365) is
3287627727980480330 — the float product rounds up by 182, so the claim's
universal equality fails on the code. -/
theorem days_float_rounding_counterexample :
    days_left_fl c4Inputs = 3287627727980480512 ∧
      ⌊(predict_life_expectancy c4Inputs).years_left * 365⌋ = 3287627727980480330 ∧
      days_left_fl c4Inputs ≠ ⌊(predict_life_expectancy c4Inputs).years_left * 365⌋ := by
  have hnb : normalize_bool (some "true") = true := by decide
  have hsex : sex_adj "other" = 0 := by decide
  have hs : score_raw c4Inputs = 46 := by
    simp only [score_raw, c4Inputs, safe_int, safe_float, pyFloat, hnb, Option.getD]
    norm_num [hsex, bmi_adj, bp_adj, diabetic_adj, smoker_adj, sleep_adj,
      exercise_adj, alcohol_adj, fv_adj, stress_adj, chol_adj, clamp, truncInt,
      BASE_LIFE_EXPECTANCY, max_def, min_def]
  have hcl : clamped_score c4Inputs = 50 := by
    rw [clamped_score, hs]
    norm_num [clamp, max_def, min_def]
  have hage : safe_int c4Inputs.age 0 = -9007199254740992 := by
    simp only [c4Inputs, safe_int, pyFloat]
    rw [truncInt, if_neg (by norm_num),
      show ((-9007199254740992 : ℚ)) = ((-9007199254740992 : ℤ) : ℚ) by norm_num,
      Int.ceil_intCast]
  have hy : years_left_pre c4Inputs = 9007199254741042 := by
    rw [years_left_pre, hcl, hage]
    norm_num [max_def]
  have hyl : (predict_life_expectancy c4Inputs).years_left = 9007199254741042 := by
    simp only [predict_life_expectancy, hy]
    norm_num [round1]
  have hlog : Int.log 2 (3287627727980480330 : ℚ) = 61 := by
    have h1 : ((2 : ℕ) : ℚ) ^ (61 : ℤ) ≤ 3287627727980480330 := by
      push_cast
      rw [show ((61 : ℤ)) = ((61 : ℕ) : ℤ) by norm_num, zpow_natCast]
      norm_num
    have h2 : (3287627727980480330 : ℚ) < ((2 : ℕ) : ℚ) ^ (62 : ℤ) := by
      push_cast
      rw [show ((62 : ℤ)) = ((62 : ℕ) : ℤ) by norm_num, zpow_natCast]
      norm_num
    have h3 := (Int.zpow_le_iff_le_log (by norm_num) (by norm_num)).mp h1
    have h4 := (Int.lt_zpow_iff_log_lt (by norm_num) (by norm_num)).mp h2
    omega
  have hpow : ((2 : ℚ)) ^ ((61 : ℤ) - 52) = 512 := by
    rw [show ((61 : ℤ) - 52) = ((9 : ℕ) : ℤ) by norm_num, zpow_natCast]
    norm_num
  have hfl : fl64pos (3287627727980480330 : ℚ) = 3287627727980480512 := by
    rw [fl64pos, hlog, hpow]
    have hflo : (⌊(3287627727980480330 : ℚ) / 512⌋ : ℤ) = 6421147906211875 := by
      norm_num
    have hcei : (⌈(3287627727980480330 : ℚ) / 512⌉ : ℤ) = 6421147906211876 := by
      rw [Int.ceil_eq_iff]
      norm_num
    rw [roundTiesEven, hflo, hcei]
    norm_num
  have hprod : (9007199254741042 : ℚ) * 365 = 3287627727980480330 := by norm_num
  have hdays : days_left_fl c4Inputs = 3287627727980480512 := by
    rw [days_left_fl, hy, hprod, hfl]
    norm_num [truncInt]
  refine ⟨hdays, ?_, ?_⟩
  · rw [hyl]
    norm_num
  · rw [hdays, hyl]
    norm_num

/-- C4 amended: for every input record whose coerced age is at least
`-2 ^ 43` — a range on which every binary64 step of lines 201-202 is
exact — the returned days_left (float product modelled faithfully) equals
floor(years_left * 365) with years_left the returned (rounded) value, and
agrees with the exact-product model; `int()` truncation coincides with the
floor because the product is non-negative. -/
theorem days_left_eq_floor_bounded_age (i : Inputs)
    (h : -(2 ^ 43) ≤ safe_int i.age 0) :
    days_left_fl i = (predict_life_expectancy i).days_left ∧
      days_left_fl i = ⌊(predict_life_expectancy i).years_left * 365⌋ := by
  have hy0 : 0 ≤ years_left_pre i := years_left_pre_nonneg i
  have hyh : halfInt (years_left_pre i) := years_left_pre_halfInt i
  have hybound : years_left_pre i ≤ 100 + 2 ^ 43 := by
    have h100 : clamped_score i ≤ 100 := clamped_score_le i
    have hage : -((2 : ℚ) ^ 43) ≤ (safe_int i.age 0 : ℚ) := by exact_mod_cast h
    rw [years_left_pre]
    apply max_le (by norm_num)
    linarith
  have hph : halfInt (years_left_pre i * 365) := by
    obtain ⟨k, hk⟩ := hyh
    exact ⟨k * 365, by rw [hk]; push_cast; ring⟩
  have hp0 : 0 ≤ years_left_pre i * 365 := mul_nonneg hy0 (by norm_num)
  have hplt : years_left_pre i * 365 < 2 ^ 52 := by nlinarith
  have hid : round1 (years_left_pre i) = years_left_pre i := round1_halfInt hyh
  have hfl : fl64pos (years_left_pre i * 365) = years_left_pre i * 365 := by
    rcases hp0.eq_or_lt with h0 | h0
    · rw [← h0]
      exact fl64pos_zero
    · exact fl64pos_eq_self h0 hplt hph
  constructor
  · rw [days_left_fl, predict_life_expectancy, hfl]
  · rw [days_left_fl, hfl]
    simp only [predict_life_expectancy, hid, truncInt]
    rw [if_pos hp0]

/-- Witness for C4 amended: the all-absent record (coerced age 0) has its
float-faithful days_left equal to the exact floor. -/
theorem days_left_eq_floor_bounded_age_witness :
    -(2 ^ 43) ≤ safe_int emptyInputs.age 0 ∧
      (days_left_fl emptyInputs = (predict_life_expectancy emptyInputs).days_left ∧
        days_left_fl emptyInputs =
          ⌊(predict_life_expectancy emptyInputs).years_left * 365⌋) :=
  ⟨by norm_num [emptyInputs, safe_int, pyFloat],
    days_left_eq_floor_bounded_age emptyInputs
      (by norm_num [emptyInputs, safe_int, pyFloat])⟩

/-- C5: for every input record, regardless of how large the age field is,
the years_left returned by the scoring function is greater than or equal
to 0. -/
theorem years_left_nonneg (i : Inputs) :
    0 ≤ (predict_life_expectancy i).years_left := by
  have hid : round1 (years_left_pre i) = years_left_pre i :=
    round1_halfInt (years_left_pre_halfInt i)
  simp only [predict_life_expectancy, hid]
  exact years_left_pre_nonneg i

/-- C7: for any two input records identical except for the smoker field,
where one parses to smoker=true and the other to smoker=false, the
pre-clamp running total of the smoker=true run is exactly 7 less than that
of the smoker=false run. -/
theorem smoker_penalty_exact_seven (i : Inputs) (s₁ s₂ : Option String)
    (h₁ : normalize_bool s₁ = true) (h₂ : normalize_bool s₂ = false) :
    score_raw { i with smoker := s₁ } = score_raw { i with smoker := s₂ } - 7 := by
  simp [score_raw, h₁, h₂, smoker_adj]
  ring

/-- Witness for C7: the all-absent record with smoker "yes" scores exactly
7 below the same record with smoker absent. -/
theorem smoker_penalty_exact_seven_witness :
    normalize_bool (some "yes") = true ∧ normalize_bool none = false ∧
      score_raw { emptyInputs with smoker := some "yes" } =
        score_raw { emptyInputs with smoker := none } - 7 :=
  ⟨by decide, by decide,
    smoker_penalty_exact_seven emptyInputs (some "yes") none (by decide) (by decide)⟩

/-- C8: holding all other fields fixed, the pre-clamp running total is
monotonically non-decreasing in weeklyExerciseMinutes over the range 0 to
200. -/
theorem exercise_monotone_pre_clamp (i : Inputs) (e₁ e₂ : ℤ)
    (h0 : 0 ≤ e₁) (h12 : e₁ ≤ e₂) (h200 : e₂ ≤ 200) :
    score_raw { i with weekly_exercise_minutes := .num (e₁ : ℚ) } ≤
      score_raw { i with weekly_exercise_minutes := .num (e₂ : ℚ) } := by
  have key : exercise_adj e₁ ≤ exercise_adj e₂ := exercise_adj_mono h12
  simp only [score_raw, safe_int_num]
  exact add_le_add_right (add_le_add_right (add_le_add_right (add_le_add_right
    (add_le_add_left key _) _) _) _) _

/-- Witness for C8: exercising 200 minutes scores at least as high as 0
minutes on the all-absent record. -/
theorem exercise_monotone_pre_clamp_witness :
    (0 : ℤ) ≤ 0 ∧ (0 : ℤ) ≤ 200 ∧ (200 : ℤ) ≤ 200 ∧
      score_raw { emptyInputs with weekly_exercise_minutes := .num ((0 : ℤ) : ℚ) } ≤
        score_raw { emptyInputs with weekly_exercise_minutes := .num ((200 : ℤ) : ℚ) } :=
  ⟨by norm_num, by norm_num, by norm_num,
    exercise_monotone_pre_clamp emptyInputs 0 200 (by norm_num) (by norm_num) (by norm_num)⟩

/-- C9: for every input record, the pre-rounding clamped score and pre-
rounding years_left are integer multiples of 1/2, so the round-to-one-
decimal step is the identity on both returned values. -/
theorem outputs_half_integral_round_identity (i : Inputs) :
    (∃ k : ℤ, clamped_score i = (k : ℚ) / 2) ∧
      (∃ m : ℤ, years_left_pre i = (m : ℚ) / 2) ∧
      (predict_life_expectancy i).predicted_life_expectancy = clamped_score i ∧
      (predict_life_expectancy i).years_left = years_left_pre i := by
  refine ⟨clamped_score_halfInt i, years_left_pre_halfInt i, ?_, ?_⟩
  · simp only [predict_life_expectancy]
    exact round1_halfInt (clamped_score_halfInt i)
  · simp only [predict_life_expectancy]
    exact round1_halfInt (years_left_pre_halfInt i)

/-- C10: when stress_level is absent or unparsable the scoring function
falls back to 5 (stress adjustment −0.5), when cholesterol is absent or
unparsable it falls back to 180 (cholesterol adjustment 0), and every other
numeric field falls back to 0 (via `safe_int`/`safe_float` with default 0). -/
theorem fallback_defaults (v : RawNum) (h : v.isNum = false) :
    safe_int v 5 = 5 ∧ stress_adj (clamp (safe_int v 5) 1 10) = -(1 / 2) ∧
      safe_int v 180 = 180 ∧ chol_adj (safe_int v 180) = 0 ∧
      safe_int v 0 = 0 ∧ safe_float v 0 = 0 := by
  have hpf : pyFloat v = .error () := by
    cases v <;> simp_all [pyFloat, RawNum.isNum]
  simp only [safe_int, safe_float, hpf]
  norm_num [stress_adj, chol_adj, clamp, max_def, min_def]

/-- Witness for C10: the absent raw value takes all the fallback branches. -/
theorem fallback_defaults_witness :
    RawNum.isNum .absent = false ∧
      (safe_int .absent 5 = 5 ∧
        stress_adj (clamp (safe_int .absent 5) 1 10) = -(1 / 2) ∧
        safe_int .absent 180 = 180 ∧ chol_adj (safe_int .absent 180) = 0 ∧
        safe_int .absent 0 = 0 ∧ safe_float .absent 0 = 0) :=
  ⟨rfl, fallback_defaults .absent rfl⟩
